import Mathlib

/-!
Verification model of the `stereos-core` splat pipeline
(`src/crates/stereos-core/src/{lib,clean,ply,gltf}.rs`).

Numbers: the Rust code computes on IEEE-754 `f32`; the model uses `ℚ` for
the field values.  The transcendental / platform primitives that the code
takes from external crates or `std` (`f32::exp`, the square root inside
`glam`'s `Vec3::distance` and `Quat::normalize`, the IEEE-754 little-endian
byte codecs used by `f32::from_le_bytes` / `bytemuck::cast_slice`, and
`str::parse::<f32>`) are not code of this repository; they are passed in as
an explicit `FloatOps` parameter, and every theorem quantifies over it.
-/

/-- External floating-point primitives (from `std` / `glam` / `bytemuck`),
abstracted as parameters of the model. -/
structure FloatOps where
  /-- `f32::exp` -/
  exp : ℚ → ℚ
  /-- the square root used by `glam`'s `Vec3::distance` and `Quat::normalize` -/
  sqrt : ℚ → ℚ
  /-- `f32::from_le_bytes` on four bytes -/
  f32FromLE : ℕ → ℕ → ℕ → ℕ → ℚ
  /-- little-endian bytes of an `f32` (`f32::to_le_bytes` via `bytemuck::cast_slice`) -/
  f32ToLE : ℚ → Fin 4 → ℕ
  /-- `str::parse::<f32>` -/
  parseF32 : String → Option ℚ

/-- `glam::Vec3` with rational components. -/
structure Vec3 where
  x : ℚ
  y : ℚ
  z : ℚ
deriving DecidableEq, Repr

/-- The all-zero vector, used as the default for out-of-range list reads. -/
def Vec3.zero : Vec3 := ⟨0, 0, 0⟩

/-- `glam::Quat` with rational components. -/
structure Quat where
  x : ℚ
  y : ℚ
  z : ℚ
  w : ℚ
deriving DecidableEq, Repr

/-- The zero quaternion, used as the default for out-of-range list reads. -/
def Quat.zero : Quat := ⟨0, 0, 0, 0⟩

/-- `GaussianCloud` from `lib.rs`: columnar storage of per-splat attributes. -/
structure GaussianCloud where
  count : ℕ
  positions : List Vec3
  opacities : List ℚ
  scales : List Vec3
  rotations : List Quat
  sh_coeffs : List (List ℚ)
deriving DecidableEq, Repr

/-- Data-model invariant of a splat collection: all five attribute sequences
have length `count` and every spherical-harmonics record has 48 entries. -/
def GaussianCloud.wf (c : GaussianCloud) : Prop :=
  c.positions.length = c.count ∧ c.opacities.length = c.count ∧
  c.scales.length = c.count ∧ c.rotations.length = c.count ∧
  c.sh_coeffs.length = c.count ∧ ∀ sh ∈ c.sh_coeffs, sh.length = 48

instance (c : GaussianCloud) : Decidable c.wf := by
  unfold GaussianCloud.wf
  infer_instance

/-- `CleanOptions` from `clean.rs`. -/
structure CleanOptions where
  min_opacity : ℚ
  min_scale : ℚ
  outlier_sigma : Option ℚ
deriving DecidableEq, Repr

/-- `CleanStats` from `clean.rs`. -/
structure CleanStats where
  original_count : ℕ
  removed_low_opacity : ℕ
  removed_small_scale : ℕ
  removed_outliers : ℕ
  final_count : ℕ
deriving DecidableEq, Repr

/-- Phase 1 predicate of `GaussianCloud::clean`: keep splat `i` when
`self.opacities[i] >= options.min_opacity`. -/
def opacityKeep (o : CleanOptions) (c : GaussianCloud) (i : ℕ) : Bool :=
  decide (o.min_opacity ≤ c.opacities.getD i 0)

/-- Phase 2 predicate of `GaussianCloud::clean`: keep splat `i` when any of
the three scale components is `>= options.min_scale`. -/
def scaleKeep (o : CleanOptions) (c : GaussianCloud) (i : ℕ) : Bool :=
  let s := c.scales.getD i Vec3.zero
  decide (o.min_scale ≤ s.x) || decide (o.min_scale ≤ s.y) || decide (o.min_scale ≤ s.z)

/-- Indices surviving the opacity stage of `GaussianCloud::clean`
(`keep_indices` after phase 1), in their original relative order. -/
def keepAfterOpacity (c : GaussianCloud) (o : CleanOptions) : List ℕ :=
  (List.range c.count).filter (opacityKeep o c)

/-- Indices surviving the scale stage of `GaussianCloud::clean`
(`keep_indices` after phase 2). -/
def keepAfterScale (c : GaussianCloud) (o : CleanOptions) : List ℕ :=
  (keepAfterOpacity c o).filter (scaleKeep o c)

/-- Ascending sort, modelling `sort_by(|a, b| a.partial_cmp(b).unwrap())`. -/
def sortQ (l : List ℚ) : List ℚ :=
  l.mergeSort (fun a b => decide (a ≤ b))

/-- The `median` closure of `GaussianCloud::clean`, on an already sorted list. -/
def medianSorted (sorted : List ℚ) : ℚ :=
  let n := sorted.length
  if n % 2 = 0 then (sorted.getD (n / 2 - 1) 0 + sorted.getD (n / 2) 0) / 2
  else sorted.getD (n / 2) 0

/-- `glam::Vec3::distance` (Euclidean), via the abstract square root. -/
def vdist (F : FloatOps) (a b : Vec3) : ℚ :=
  F.sqrt ((a.x - b.x) ^ 2 + (a.y - b.y) ^ 2 + (a.z - b.z) ^ 2)

/-- Robust centroid of phase 3 of `GaussianCloud::clean`: per-axis median of
the surviving positions. -/
def outlierCenter (c : GaussianCloud) (keep : List ℕ) : Vec3 :=
  let xs := sortQ (keep.map fun i => (c.positions.getD i Vec3.zero).x)
  let ys := sortQ (keep.map fun i => (c.positions.getD i Vec3.zero).y)
  let zs := sortQ (keep.map fun i => (c.positions.getD i Vec3.zero).z)
  ⟨medianSorted xs, medianSorted ys, medianSorted zs⟩

/-- Distance threshold of phase 3 of `GaussianCloud::clean`:
`median_distance + sigma_threshold * (1.4826 * MAD)`. -/
def outlierMaxDistance (F : FloatOps) (c : GaussianCloud) (keep : List ℕ)
    (sigmaThreshold : ℚ) : ℚ :=
  let center := outlierCenter c keep
  let distances := keep.map fun i => vdist F (c.positions.getD i Vec3.zero) center
  let sortedDistances := sortQ distances
  let medianDistance := medianSorted sortedDistances
  let absDeviations := sortQ (sortedDistances.map fun d => |d - medianDistance|)
  let mad := medianSorted absDeviations
  medianDistance + sigmaThreshold * ((1.4826 : ℚ) * mad)

/-- Phase 3 predicate of `GaussianCloud::clean`: keep splat `i` when its
distance to the robust centroid does not exceed the threshold. -/
def outlierKeep (F : FloatOps) (c : GaussianCloud) (sigmaThreshold : ℚ)
    (keep : List ℕ) (i : ℕ) : Bool :=
  decide (vdist F (c.positions.getD i Vec3.zero) (outlierCenter c keep) ≤
    outlierMaxDistance F c keep sigmaThreshold)

/-- Indices surviving the outlier stage of `GaussianCloud::clean`
(`keep_indices` after phase 3; a no-op unless `outlier_sigma` is set and more
than two splats survive the earlier stages). -/
def keepAfterOutlier (F : FloatOps) (c : GaussianCloud) (o : CleanOptions) : List ℕ :=
  let keep := keepAfterScale c o
  match o.outlier_sigma with
  | none => keep
  | some sigmaThreshold =>
      if 2 < keep.length then keep.filter (outlierKeep F c sigmaThreshold keep) else keep

/-- `GaussianCloud::clean` from `clean.rs`: three filter stages in order
(opacity, scale, outlier), per-stage removal counters, and a new cloud built
from the retained indices in their original order. -/
def GaussianCloud.clean (F : FloatOps) (c : GaussianCloud) (o : CleanOptions) :
    GaussianCloud × CleanStats :=
  let keep1 := keepAfterOpacity c o
  let keep2 := keepAfterScale c o
  let keep3 := keepAfterOutlier F c o
  let removedOutliers :=
    match o.outlier_sigma with
    | none => 0
    | some sigmaThreshold =>
        if 2 < keep2.length then
          keep2.countP fun i => !outlierKeep F c sigmaThreshold keep2 i
        else 0
  let cleaned : GaussianCloud :=
    { count := keep3.length
      positions := keep3.map fun i => c.positions.getD i Vec3.zero
      opacities := keep3.map fun i => c.opacities.getD i 0
      scales := keep3.map fun i => c.scales.getD i Vec3.zero
      rotations := keep3.map fun i => c.rotations.getD i Quat.zero
      sh_coeffs := keep3.map fun i => c.sh_coeffs.getD i [] }
  (cleaned,
    { original_count := c.count
      removed_low_opacity := (List.range c.count).countP fun i => !opacityKeep o c i
      removed_small_scale := keep1.countP fun i => !scaleKeep o c i
      removed_outliers := removedOutliers
      final_count := keep3.length })

-- A concrete instantiation of the external primitives, used by witnesses.

/-- Trivial instantiation of the external float primitives for witnesses. -/
def F0 : FloatOps :=
  { exp := fun q => q + 1
    sqrt := fun q => q
    f32FromLE := fun a b c d => (a : ℚ) + 256 * b + 65536 * c + 16777216 * d
    f32ToLE := fun _ _ => 0
    parseF32 := fun _ => some 0 }

/-- One-splat collection used by witnesses. -/
def cloudW : GaussianCloud :=
  { count := 1
    positions := [⟨0, 0, 0⟩]
    opacities := [1]
    scales := [⟨1, 1, 1⟩]
    rotations := [⟨0, 0, 0, 1⟩]
    sh_coeffs := [List.replicate 48 0] }

/-- Cleaning options used by witnesses (integer thresholds keep the kernel
evaluation of `ℚ` comparisons cheap; the thresholds sit exactly at the
witness splat's values, exercising the inclusive boundary). -/
def optsW : CleanOptions := ⟨1, 1, some 3⟩

-- `ply.rs`: PLY body decoding.

/-- `SplatsError` from `lib.rs`. -/
inductive SplatsError where
  | io : String → SplatsError
  | ply : String → SplatsError
  | invalidData : String → SplatsError
  | json : String → SplatsError
  | token : String → SplatsError
  | quotaExceeded : SplatsError
  | fileTooLarge : ℕ → ℕ → SplatsError
deriving DecidableEq, Repr

/-- `BYTES_PER_VERTEX` from `ply.rs`: 62 four-byte floats per vertex. -/
def BYTES_PER_VERTEX : ℕ := 248

/-- The `sigmoid` helper from `ply.rs`: `1.0 / (1.0 + (-x).exp())`. -/
def sigmoidF (F : FloatOps) (x : ℚ) : ℚ :=
  1 / (1 + F.exp (-x))

/-- The `read_f32` closure of `parse_binary`: `f32::from_le_bytes` on the four
bytes at offset `o` of the vertex record. -/
def read_f32 (F : FloatOps) (vertex : List ℕ) (o : ℕ) : ℚ :=
  F.f32FromLE (vertex.getD o 0) (vertex.getD (o + 1) 0)
    (vertex.getD (o + 2) 0) (vertex.getD (o + 3) 0)

/-- `glam::Quat::normalize`: divide each component by the Euclidean length
(abstract square root). -/
def quatNormalize (F : FloatOps) (q : Quat) : Quat :=
  let len := F.sqrt (q.x ^ 2 + q.y ^ 2 + q.z ^ 2 + q.w ^ 2)
  ⟨q.x / len, q.y / len, q.z / len, q.w / len⟩

/-- The attributes pushed for one decoded vertex (the five `push` calls of the
decoder loops, gathered into one record). -/
structure SplatRec where
  pos : Vec3
  opacity : ℚ
  scale : Vec3
  rot : Quat
  sh : List ℚ
deriving DecidableEq, Repr

/-- A `GaussianCloud` assembled from decoded vertex records with an explicit
`count` (the decoder loops push each attribute in file order). -/
def cloudOfSplats (count : ℕ) (recs : List SplatRec) : GaussianCloud :=
  { count := count
    positions := recs.map SplatRec.pos
    opacities := recs.map SplatRec.opacity
    scales := recs.map SplatRec.scale
    rotations := recs.map SplatRec.rot
    sh_coeffs := recs.map SplatRec.sh }

/-- One iteration of the `parse_binary` loop: decode the fixed 248-byte
little-endian record `i`, applying the sigmoid / exponential / quaternion
transforms.  File order of the quaternion is (w,x,y,z) at offsets 232..247;
it is reordered to (x,y,z,w) and normalized. -/
def binSplat (F : FloatOps) (data : List ℕ) (i : ℕ) : SplatRec :=
  let vertex := (data.drop (i * BYTES_PER_VERTEX)).take BYTES_PER_VERTEX
  let r := read_f32 F vertex
  { pos := ⟨r 0, r 4, r 8⟩
    sh := [r 24, r 28, r 32] ++ (List.range 45).map fun j => r (36 + j * 4)
    opacity := sigmoidF F (r 216)
    scale := ⟨F.exp (r 220), F.exp (r 224), F.exp (r 228)⟩
    rot := quatNormalize F ⟨r 236, r 240, r 244, r 232⟩ }

/-- `parse_binary` from `ply.rs`. -/
def parse_binary (F : FloatOps) (data : List ℕ) (count : ℕ) :
    Except SplatsError GaussianCloud :=
  let expected_size := count * BYTES_PER_VERTEX
  if data.length < expected_size then
    .error (.ply ("Not enough data: expected " ++ toString expected_size ++
      " bytes, got " ++ toString data.length))
  else
    .ok (cloudOfSplats count ((List.range count).map (binSplat F data)))

-- Modelled from the documented behavior of Rust's `str::lines` and
-- `str::split_whitespace` (std, external to this repository), as structural
-- recursion over the character list.

/-- Strip one trailing carriage return, as `str::lines` does on each line
that was terminated by a newline. -/
def stripCRend (xs : List Char) : List Char :=
  if xs.getLast? = some '\r' then xs.dropLast else xs

/-- Accumulator pass for `str::lines`: split at every newline, stripping a
trailing carriage return of terminated lines; no trailing empty line. -/
def linesAux : List Char → List Char → List (List Char)
  | acc, [] => if acc.isEmpty then [] else [acc.reverse]
  | acc, c :: rest =>
    if c = '\n' then stripCRend acc.reverse :: linesAux [] rest
    else linesAux (c :: acc) rest

/-- Rust `str::lines` (modelled from its std documentation). -/
def rustLines (s : String) : List String :=
  (linesAux [] s.data).map String.mk

/-- Accumulator pass for `str::split_whitespace`: maximal runs of
non-whitespace characters, with no empty tokens. -/
def wsTokensAux : List Char → List Char → List (List Char)
  | acc, [] => if acc.isEmpty then [] else [acc.reverse]
  | acc, c :: rest =>
    if c.isWhitespace then
      if acc.isEmpty then wsTokensAux [] rest
      else acc.reverse :: wsTokensAux [] rest
    else wsTokensAux (c :: acc) rest

/-- Rust `str::split_whitespace` (modelled from its std documentation). -/
def splitWhitespace (s : String) : List String :=
  (wsTokensAux [] s.data).map String.mk

/-- The `values` vector of one `parse_ascii` line: whitespace-split tokens,
keeping only those that parse as floating point (`filter_map(parse.ok)`). -/
def asciiValues (F : FloatOps) (line : String) : List ℚ :=
  (splitWhitespace line).filterMap F.parseF32

/-- The vertex record built by `parse_ascii` from the parsed values of one
line (indices 0-2 position, 6-53 spherical harmonics, 54 opacity logit,
55-57 log scale, 58-61 quaternion in (w,x,y,z) order). -/
def asciiSplat (F : FloatOps) (vs : List ℚ) : SplatRec :=
  { pos := ⟨vs.getD 0 0, vs.getD 1 0, vs.getD 2 0⟩
    sh := [vs.getD 6 0, vs.getD 7 0, vs.getD 8 0] ++
      (List.range 45).map fun j => vs.getD (9 + j) 0
    opacity := sigmoidF F (vs.getD 54 0)
    scale := ⟨F.exp (vs.getD 55 0), F.exp (vs.getD 56 0), F.exp (vs.getD 57 0)⟩
    rot := quatNormalize F ⟨vs.getD 59 0, vs.getD 60 0, vs.getD 61 0, vs.getD 58 0⟩ }

/-- One iteration of the `parse_ascii` loop on line index `i`: error when
fewer than 62 values parse, otherwise build the splat record. -/
def asciiLine (F : FloatOps) (i : ℕ) (line : String) : Except SplatsError SplatRec :=
  let values := asciiValues F line
  if values.length < 62 then
    .error (.ply ("Line " ++ toString (i + 1) ++ ": expected 62 properties, got " ++
      toString values.length))
  else
    .ok (asciiSplat F values)

/-- The `parse_ascii` loop over the taken lines, threading the line index. -/
def asciiSplats (F : FloatOps) : List String → ℕ → Except SplatsError (List SplatRec)
  | [], _ => .ok []
  | line :: rest, i =>
    match asciiLine F i line with
    | .error e => .error e
    | .ok s =>
      match asciiSplats F rest (i + 1) with
      | .error e => .error e
      | .ok t => .ok (s :: t)

/-- `parse_ascii` from `ply.rs`: at most `count` lines are decoded and the
final count is the number of decoded vertices. -/
def parse_ascii (F : FloatOps) (content : String) (count : ℕ) :
    Except SplatsError GaussianCloud :=
  match asciiSplats F ((rustLines content).take count) 0 with
  | .error e => .error e
  | .ok recs => .ok (cloudOfSplats recs.length recs)

/-- Binary PLY body used by the C3 witness: one all-zero 248-byte record. -/
def bdataW : List ℕ := List.replicate 248 0

/-- Decoded collection of the C3 witness's binary body. -/
def cbW : GaussianCloud := cloudOfSplats 1 ((List.range 1).map (binSplat F0 bdataW))

/-- Decoded collection of the C3 witness's (empty) ASCII body. -/
def caW : GaussianCloud := cloudOfSplats 0 []

/-- ASCII line with 62 tokens used by the C8 and C10 witnesses. -/
def lineW : String :=
  "1 2 3 4 5 6 7 8 9 10 11 12 13 14 15 16 17 18 19 20 21 22 23 24 25 26 27 28 29 30 31 32 33 34 35 36 37 38 39 40 41 42 43 44 45 46 47 48 49 50 51 52 53 54 55 56 57 58 59 60 61 62"

-- `gltf.rs`: glTF/GLB export (build of the `meshopt` feature disabled, where
-- `compress_vertex_buffer` always returns `None`).

/-- `SH_C0` from `gltf.rs`: the literal `0.282_094_79`. -/
def SH_C0 : ℚ := 0.28209479

/-- Rust `f32::clamp`: `min` if below, `max` if above, identity otherwise. -/
def rclamp (x lo hi : ℚ) : ℚ :=
  if x < lo then lo else if hi < x then hi else x

/-- `sh_to_rgba` from `gltf.rs`: RGBA from the three DC spherical-harmonic
terms and the opacity. -/
def sh_to_rgba (sh : List ℚ) (opacity : ℚ) : List ℚ :=
  [rclamp (sh.getD 0 0 * SH_C0 + 0.5) 0 1,
   rclamp (sh.getD 1 0 * SH_C0 + 0.5) 0 1,
   rclamp (sh.getD 2 0 * SH_C0 + 0.5) 0 1,
   opacity]

/-- Rounding to `u8` with saturation, modelling `(x * 255.0).round() as u8`
(for the saturated range the round-half-away-from-zero of Rust agrees with
`round`). -/
def toU8 (q : ℚ) : ℕ :=
  Int.toNat (max 0 (min 255 (round (q * 255))))

/-- Truncation toward zero, modelling Rust's float-to-int `as` cast. -/
def ratTrunc (q : ℚ) : Int :=
  if 0 ≤ q then ⌊q⌋ else ⌈q⌉

/-- `f32::EPSILON` as an exact rational. -/
def f32EPSILON : ℚ := 1 / 2 ^ 23

/-- `f32::MAX` as an exact rational. -/
def f32MAX : ℚ := (2 ^ 24 - 1) * 2 ^ 104

/-- `f32::MIN` as an exact rational. -/
def f32MIN : ℚ := -f32MAX

/-- Componentwise minimum (`glam::Vec3::min`). -/
def vmin (a b : Vec3) : Vec3 := ⟨min a.x b.x, min a.y b.y, min a.z b.z⟩

/-- Componentwise maximum (`glam::Vec3::max`). -/
def vmax (a b : Vec3) : Vec3 := ⟨max a.x b.x, max a.y b.y, max a.z b.z⟩

/-- `compute_bounds` from `gltf.rs`: componentwise min/max fold, with the
zero pair for an empty position list. -/
def compute_bounds (positions : List Vec3) : Vec3 × Vec3 :=
  if positions.isEmpty then (Vec3.zero, Vec3.zero)
  else positions.foldl (fun mm p => (vmin mm.1 p, vmax mm.2 p))
    (⟨f32MAX, f32MAX, f32MAX⟩, ⟨f32MIN, f32MIN, f32MIN⟩)

/-- The `normalize` closure of the position-quantization branch: remap into
[-1,1] from the bounds (degenerate axis goes to 0), scale by 32767, clamp,
and truncate to an integer as the `as i16` cast does. -/
def quantizeCoord (val mn mx : ℚ) : Int :=
  if |mx - mn| < f32EPSILON then 0
  else ratTrunc (rclamp (((val - mn) / (mx - mn) * 2 - 1) * 32767) (-32767) 32767)

/-- Little-endian bytes of one `f32` (via the abstract IEEE encoder). -/
def f32le (F : FloatOps) (q : ℚ) : List ℕ :=
  List.ofFn (F.f32ToLE q)

/-- Little-endian two's-complement bytes of an `i16`. -/
def i16le (n : Int) : List ℕ :=
  [(n % 65536).toNat % 256, (n % 65536).toNat / 256]

/-- Little-endian bytes of a `u32` (wrapping, as the `as u32` cast does). -/
def u32le (n : ℕ) : List ℕ :=
  [n % 256, n / 256 % 256, n / 65536 % 256, n / 16777216 % 256]

/-- Little-endian value of a byte list. -/
def leNat (bs : List ℕ) : ℕ :=
  bs.foldr (fun b acc => b + 256 * acc) 0

/-- Zero-padding needed to align a byte count to a 4-byte boundary
(`(4 - (len % 4)) % 4`). -/
def pad4 (n : ℕ) : ℕ := (4 - n % 4) % 4

/-- An accessor of the document graph (the fields `build_gltf` populates). -/
structure Accessor where
  buffer_view : ℕ
  byte_offset : Option ℕ
  component_type : ℕ
  count : ℕ
  type_ : String
  min : Option (List ℚ)
  max : Option (List ℚ)
  normalized : Bool
  name : String
deriving DecidableEq, Repr

/-- A buffer view of the document graph. -/
structure BufferView where
  byte_offset : ℕ
  byte_length : ℕ
  byte_stride : Option ℕ
  name : String
deriving DecidableEq, Repr

/-- `BufferViewCompressionInfo` from `gltf.rs` (`ratio` as a rational; the
source's `attribute` field is spelled `attributeName`, `attribute` being a
reserved word here). -/
structure BufferViewCompressionInfo where
  attributeName : String
  original_size : ℕ
  compressed_size : ℕ
  ratio : ℚ
deriving DecidableEq, Repr

/-- `CompressionStats` from `gltf.rs`. -/
structure CompressionStats where
  compressed_count : ℕ
  skipped_count : ℕ
  original_size : ℕ
  compressed_size : ℕ
  details : List BufferViewCompressionInfo
deriving DecidableEq, Repr

/-- The document graph assembled by `build_gltf`.  The constant parts of the
`gltf_json::Root` (the single mesh/node/scene and asset record) carry no
input-dependent data and are folded into the abstract serializer; the fields
kept here are the ones the encoder computes. -/
structure GltfRoot where
  accessors : List Accessor
  buffer_views : List BufferView
  buffer_byte_length : ℕ
  buffer_uri : Option String
  attributes : List (String × ℕ)
  extensions_used : List String
  asset_version : String
deriving DecidableEq, Repr

/-- The mutable state threaded through `build_gltf`'s `add_accessor` closure. -/
structure BuildState where
  buffer_data : List ℕ
  accessors : List Accessor
  buffer_views : List BufferView
  stats : CompressionStats
deriving DecidableEq, Repr

/-- `ExportFormat` from `lib.rs`. -/
inductive ExportFormat where
  | glb : ExportFormat
  | gltfEmbedded : ExportFormat
deriving DecidableEq, Repr

/-- `ExportConfig` from `lib.rs`. -/
structure ExportConfig where
  format : ExportFormat
  quantize_colors : Bool
  export_full_sh : Bool
  quantize_positions : Bool
  meshopt_compression : Bool
deriving DecidableEq, Repr

/-- The `add_accessor` closure of `build_gltf`: align the buffer to 4 bytes,
append the attribute bytes, and push one buffer view and one accessor.  In
the build without the `meshopt` feature, `compress_vertex_buffer` returns
`None`, so the data is stored uncompressed; when `use_meshopt` is set the
statistics still record the attribute as skipped (for a positive stride)
with ratio 1 and compressed size 0 in the details. -/
def addAccessor (useMeshopt : Bool) (st : BuildState) (data : List ℕ)
    (componentType : ℕ) (type_ : String) (minB maxB : Option (List ℚ))
    (normalized : Bool) (vertexStride : ℕ) (name : String) (count : ℕ) :
    BuildState :=
  let padding := pad4 st.buffer_data.length
  let bd := st.buffer_data ++ List.replicate padding 0
  let offset := bd.length
  let stats :=
    if useMeshopt then
      { compressed_count := st.stats.compressed_count
        skipped_count := st.stats.skipped_count + (if 0 < vertexStride then 1 else 0)
        original_size := st.stats.original_size + (if 0 < vertexStride then data.length else 0)
        compressed_size := st.stats.compressed_size + (if 0 < vertexStride then data.length else 0)
        details := st.stats.details ++ [⟨name, data.length, 0, 1⟩] }
    else st.stats
  { buffer_data := bd ++ data
    accessors := st.accessors ++
      [{ buffer_view := st.buffer_views.length
         byte_offset := none
         component_type := componentType
         count := count
         type_ := type_
         min := minB
         max := maxB
         normalized := normalized
         name := name }]
    buffer_views := st.buffer_views ++
      [{ byte_offset := offset
         byte_length := data.length
         byte_stride := none
         name := name ++ "_view" }]
    stats := stats }

/-- Packed bytes of the unquantized `POSITION` attribute (3 `f32` each). -/
def positionBytesF32 (F : FloatOps) (c : GaussianCloud) : List ℕ :=
  c.positions.flatMap fun p => f32le F p.x ++ f32le F p.y ++ f32le F p.z

/-- Packed bytes of the quantized `POSITION` attribute (3 `i16` each, from
the per-axis bounds). -/
def positionBytesI16 (c : GaussianCloud) : List ℕ :=
  let mm := compute_bounds c.positions
  c.positions.flatMap fun p =>
    i16le (quantizeCoord p.x mm.1.x mm.2.x) ++
    i16le (quantizeCoord p.y mm.1.y mm.2.y) ++
    i16le (quantizeCoord p.z mm.1.z mm.2.z)

/-- The per-splat RGBA list of `build_gltf` (`colors`), before quantization. -/
def gltfColors (c : GaussianCloud) : List (List ℚ) :=
  (c.sh_coeffs.zip c.opacities).map fun sc => sh_to_rgba sc.1 sc.2

/-- Packed bytes of the quantized `COLOR_0` attribute (4 `u8` each). -/
def colorBytesU8 (c : GaussianCloud) : List ℕ :=
  (gltfColors c).flatMap fun col => col.map toU8

/-- Packed bytes of the unquantized `COLOR_0` attribute (4 `f32` each). -/
def colorBytesF32 (F : FloatOps) (c : GaussianCloud) : List ℕ :=
  (gltfColors c).flatMap fun col => col.flatMap (f32le F)

/-- Packed bytes of the `_ROTATION` attribute, component order (x,y,z,w). -/
def rotationBytes (F : FloatOps) (c : GaussianCloud) : List ℕ :=
  c.rotations.flatMap fun q => f32le F q.x ++ f32le F q.y ++ f32le F q.z ++ f32le F q.w

/-- Packed bytes of the `_SCALE` attribute (3 `f32` each). -/
def scaleBytes (F : FloatOps) (c : GaussianCloud) : List ℕ :=
  c.scales.flatMap fun s => f32le F s.x ++ f32le F s.y ++ f32le F s.z

/-- Packed bytes of the flattened 48-coefficient spherical-harmonics buffer. -/
def shFlatBytes (F : FloatOps) (c : GaussianCloud) : List ℕ :=
  (c.sh_coeffs.flatMap id).flatMap (f32le F)

/-- The first four `add_accessor` calls of `build_gltf`, in fixed order
POSITION, COLOR_0, _ROTATION, _SCALE, branching on the two quantization
toggles exactly as the source does. -/
def buildCommon (F : FloatOps) (c : GaussianCloud)
    (quantizePositions quantizeColors useMeshopt : Bool) : BuildState :=
  let st0 : BuildState := ⟨[], [], [], ⟨0, 0, 0, 0, []⟩⟩
  let mm := compute_bounds c.positions
  let st1 :=
    if quantizePositions then
      addAccessor useMeshopt st0 (positionBytesI16 c) 5122 "VEC3"
        (some [mm.1.x, mm.1.y, mm.1.z]) (some [mm.2.x, mm.2.y, mm.2.z])
        true 6 "POSITION" c.count
    else
      addAccessor useMeshopt st0 (positionBytesF32 F c) 5126 "VEC3"
        (some [mm.1.x, mm.1.y, mm.1.z]) (some [mm.2.x, mm.2.y, mm.2.z])
        false 12 "POSITION" c.count
  let st2 :=
    if quantizeColors then
      addAccessor useMeshopt st1 (colorBytesU8 c) 5121 "VEC4" none none true 4 "COLOR_0" c.count
    else
      addAccessor useMeshopt st1 (colorBytesF32 F c) 5126 "VEC4" none none false 16 "COLOR_0" c.count
  let st3 := addAccessor useMeshopt st2 (rotationBytes F c) 5126 "VEC4" none none false 16 "_ROTATION" c.count
  addAccessor useMeshopt st3 (scaleBytes F c) 5126 "VEC3" none none false 12 "_SCALE" c.count

/-- The optional `_SH_COEFFICIENTS` block of `build_gltf`: append the
byte-stride-192 flattened buffer (4-byte aligned) with one buffer view and
twelve VEC4 accessors at byte offsets `i * 16`. -/
def shExtend (F : FloatOps) (c : GaussianCloud) (st : BuildState) : BuildState :=
  let data := shFlatBytes F c
  let padding := pad4 st.buffer_data.length
  let bd := st.buffer_data ++ List.replicate padding 0
  let offset := bd.length
  let view_idx := st.buffer_views.length
  { st with
    buffer_data := bd ++ data
    buffer_views := st.buffer_views ++
      [{ byte_offset := offset
         byte_length := data.length
         byte_stride := some 192
         name := "_SH_COEFFICIENTS_view" }]
    accessors := st.accessors ++
      (List.range 12).map fun i =>
        { buffer_view := view_idx
          byte_offset := some (i * 16)
          component_type := 5126
          count := c.count
          type_ := "VEC4"
          min := none
          max := none
          normalized := false
          name := "_SH_COEFFICIENTS_" ++ toString i } }

/-- `build_gltf` from `gltf.rs`: pack the attributes, optionally extend with
the full spherical harmonics, and assemble the document graph, the packed
buffer and the optional compression statistics. -/
def build_gltf (F : FloatOps) (c : GaussianCloud) (cfg : ExportConfig) :
    GltfRoot × List ℕ × Option CompressionStats :=
  let st4 := buildCommon F c cfg.quantize_positions cfg.quantize_colors cfg.meshopt_compression
  let shBase := st4.accessors.length
  let stF := if cfg.export_full_sh then shExtend F c st4 else st4
  let attrs :=
    [("POSITION", 0), ("COLOR_0", 1), ("_ROTATION", 2), ("_SCALE", 3)] ++
    (if cfg.export_full_sh then
      (List.range 12).map fun i => ("_SH_COEFFICIENTS_" ++ toString i, shBase + i)
    else [])
  let hasMeshoptCompression := 0 < stF.stats.compressed_count
  let root : GltfRoot :=
    { accessors := stF.accessors
      buffer_views := stF.buffer_views
      buffer_byte_length := stF.buffer_data.length
      buffer_uri := none
      attributes := attrs
      extensions_used :=
        ["KHR_gaussian_splatting"] ++
        (if cfg.quantize_positions then ["KHR_mesh_quantization"] else []) ++
        (if hasMeshoptCompression then ["EXT_meshopt_compression"] else [])
      asset_version := "2.0" }
  (root, stF.buffer_data, if cfg.meshopt_compression then some stF.stats else none)

/-- `ExportResult` from `gltf.rs`. -/
structure ExportResult where
  data : List ℕ
  compression_stats : Option CompressionStats
deriving DecidableEq, Repr

/-- The GLB byte framing of `export_glb_with_stats`: 12-byte header (magic
`glTF`, version 2, total length as a wrapping `u32`), space-padded JSON
chunk, zero-padded binary chunk. -/
def glbBytes (ser : GltfRoot → List ℕ) (F : FloatOps) (c : GaussianCloud)
    (cfg : ExportConfig) : List ℕ :=
  let root := (build_gltf F c cfg).1
  let buffer_data := (build_gltf F c cfg).2.1
  let json_bytes := ser root
  let json_padding := pad4 json_bytes.length
  let json_length := json_bytes.length + json_padding
  let bin_padding := pad4 buffer_data.length
  let bin_length := buffer_data.length + bin_padding
  let total_length := 12 + 8 + json_length + 8 + bin_length
  [103, 108, 84, 70] ++ u32le 2 ++ u32le total_length ++
  u32le json_length ++ u32le 0x4E4F534A ++ json_bytes ++
  List.replicate json_padding 0x20 ++
  u32le bin_length ++ u32le 0x004E4942 ++ buffer_data ++
  List.replicate bin_padding 0

/-- `export_glb_with_stats` from `gltf.rs`, with the external JSON
serialization of the document graph (`serde_json` over `gltf_json`, which
cannot fail on this document) passed in as the total function `ser`. -/
def export_glb_with_stats (ser : GltfRoot → List ℕ) (F : FloatOps)
    (c : GaussianCloud) (cfg : ExportConfig) : Except SplatsError ExportResult :=
  .ok { data := glbBytes ser F c cfg
        compression_stats := (build_gltf F c cfg).2.2 }

/-- `export_glb` from `gltf.rs` (data of `export_glb_with_stats`). -/
def export_glb (ser : GltfRoot → List ℕ) (F : FloatOps) (c : GaussianCloud)
    (cfg : ExportConfig) : Except SplatsError (List ℕ) :=
  (export_glb_with_stats ser F c cfg).map ExportResult.data

/-- `export_gltf_embedded_with_stats` from `gltf.rs`: same document graph,
with the packed buffer base64-embedded in the buffer's URI and the document
pretty-printed by the external serializer `serPretty`. -/
def export_gltf_embedded_with_stats (serPretty : GltfRoot → List ℕ)
    (b64 : List ℕ → String) (F : FloatOps) (c : GaussianCloud)
    (cfg : ExportConfig) : Except SplatsError ExportResult :=
  let root := (build_gltf F c cfg).1
  let buffer_data := (build_gltf F c cfg).2.1
  let root2 := { root with
    buffer_uri := some ("data:application/octet-stream;base64," ++ b64 buffer_data) }
  .ok { data := serPretty root2
        compression_stats := (build_gltf F c cfg).2.2 }

/-- Serializer instantiation used by witnesses. -/
def ser0 : GltfRoot → List ℕ := fun _ => []

/-- Export configuration used by witnesses and the C4 counterexample: GLB,
quantized colors, no full SH, no position quantization, no compression. -/
def cfgCex : ExportConfig := ⟨.glb, true, false, false, false⟩

/-- The 100-million-splat collection of the C4 counterexample. -/
def bigCloud : GaussianCloud :=
  { count := 100000000
    positions := List.replicate 100000000 Vec3.zero
    opacities := List.replicate 100000000 1
    scales := List.replicate 100000000 ⟨1, 1, 1⟩
    rotations := List.replicate 100000000 ⟨0, 0, 0, 1⟩
    sh_coeffs := List.replicate 100000000 (List.replicate 48 0) }

-- C9: export of the empty collection.

/-- The empty splat collection. -/
def emptyCloud : GaussianCloud := ⟨0, [], [], [], [], []⟩

/-- Default accessor used for indexed reads of the accessor list. -/
def accD : Accessor := ⟨0, none, 0, 0, "", none, none, false, ""⟩

-- `lib.rs`: the conversion pipeline.

/-- `TokenClaims` from `token.rs` (the claims record the authorization
collaborator yields). -/
structure TokenClaims where
  sub : String
  exp : ℕ
  iat : ℕ
  conversions_remaining : ℕ
  max_file_size : ℕ
  formats : List String
deriving DecidableEq, Repr

/-- `ConvertResult` from `lib.rs`. -/
structure ConvertResult where
  data : List ℕ
  clean_stats : Option CleanStats
  compression_stats : Option CompressionStats
deriving DecidableEq, Repr

/-- `convert_with_clean` from `lib.rs`.  The external collaborators are
parameters: `validateRes` is the outcome of `token::validate` (external
JWT/Ed25519 crates), `parseFn` the PLY decoder entry point (parameterized so
that theorems can quantify over it, expressing that the checks fire before
any decoding), `ser`/`serPretty` the external JSON serializers, and `b64`
the external base64 encoder.  The order of operations follows the source:
validate, quota check, file-size check, parse, optional clean, export. -/
def convert_with_clean (validateRes : Except SplatsError TokenClaims)
    (parseFn : List ℕ → Except SplatsError GaussianCloud)
    (ser serPretty : GltfRoot → List ℕ) (b64 : List ℕ → String) (F : FloatOps)
    (ply_data : List ℕ) (config : ExportConfig) (clean_options : Option CleanOptions) :
    Except SplatsError ConvertResult :=
  match validateRes with
  | .error e => .error e
  | .ok claims =>
    if claims.conversions_remaining = 0 then .error .quotaExceeded
    else
      let file_size := ply_data.length
      if claims.max_file_size < file_size then
        .error (.fileTooLarge file_size claims.max_file_size)
      else
        match parseFn ply_data with
        | .error e => .error e
        | .ok cloud =>
          let cs := match clean_options with
            | some opts => (let x := cloud.clean F opts; (x.1, some x.2))
            | none => (cloud, none)
          let exported := match config.format with
            | .glb => export_glb_with_stats ser F cs.1 config
            | .gltfEmbedded => export_gltf_embedded_with_stats serPretty b64 F cs.1 config
          match exported with
          | .error e => .error e
          | .ok res =>
            .ok { data := res.data
                  clean_stats := cs.2
                  compression_stats := res.compression_stats }

/-- `convert` from `lib.rs`: `convert_with_clean` without cleaning, keeping
only the output bytes. -/
def convert (validateRes : Except SplatsError TokenClaims)
    (parseFn : List ℕ → Except SplatsError GaussianCloud)
    (ser serPretty : GltfRoot → List ℕ) (b64 : List ℕ → String) (F : FloatOps)
    (ply_data : List ℕ) (config : ExportConfig) : Except SplatsError (List ℕ) :=
  (convert_with_clean validateRes parseFn ser serPretty b64 F ply_data config none).map
    ConvertResult.data

/-- Claims with an exhausted quota, for the C2 witness. -/
def claimsQ : TokenClaims := ⟨"key", 0, 0, 0, 1024, []⟩

/-- Claims with a 10-byte file-size limit, for the C2 witness. -/
def claimsS : TokenClaims := ⟨"key", 0, 0, 5, 10, []⟩

/-- A PLY decoder stub for the C2 witness. -/
def parse0 : List ℕ → Except SplatsError GaussianCloud := fun _ => .ok emptyCloud

/-- A base64 stub for the C2 witness. -/
def b640 : List ℕ → String := fun _ => ""

-- Helper counting lemmas.

/-- A filtered length and the complementary `countP` add up to the length. -/
theorem length_filter_add_countP_not (p : ℕ → Bool) (l : List ℕ) :
    (l.filter p).length + (l.countP fun i => !p i) = l.length := by
  rw [← List.countP_eq_length_filter]
  have h := List.length_eq_countP_add_countP p (l := l)
  have e : (fun a => decide ¬p a = true) = fun i => !p i := by
    funext a
    by_cases hp : p a <;> simp [hp]
  rw [e] at h
  omega

/-- The statistics record produced by `GaussianCloud::clean`, spelled out. -/
theorem clean_snd_eq (F : FloatOps) (c : GaussianCloud) (o : CleanOptions) :
    (c.clean F o).2 =
      { original_count := c.count
        removed_low_opacity := (List.range c.count).countP fun i => !opacityKeep o c i
        removed_small_scale := (keepAfterOpacity c o).countP fun i => !scaleKeep o c i
        removed_outliers :=
          match o.outlier_sigma with
          | none => 0
          | some s =>
              if 2 < (keepAfterScale c o).length then
                (keepAfterScale c o).countP fun i => !outlierKeep F c s (keepAfterScale c o) i
              else 0
        final_count := (keepAfterOutlier F c o).length } := rfl

/-- C1: for every splat collection and every cleaning configuration, the
returned `CleanStats` satisfy `original_count = removed_low_opacity +
removed_small_scale + removed_outliers + final_count`, `final_count` is the
count of the returned collection, and each splat is counted in exactly one
bucket, the first stage that rejects it: the low-opacity bucket counts the
splats failing the opacity test, the small-scale bucket counts the splats
passing opacity but failing scale, and the outlier bucket together with the
survivors exactly partitions the splats that reached the outlier stage. -/
theorem clean_stats_partition (F : FloatOps) (c : GaussianCloud) (o : CleanOptions)
    (hwf : c.wf) :
    (c.clean F o).2.original_count =
      (c.clean F o).2.removed_low_opacity + (c.clean F o).2.removed_small_scale +
      (c.clean F o).2.removed_outliers + (c.clean F o).2.final_count ∧
    (c.clean F o).2.final_count = (c.clean F o).1.count ∧
    (c.clean F o).2.removed_low_opacity =
      ((List.range c.count).filter fun i => !opacityKeep o c i).length ∧
    (c.clean F o).2.removed_small_scale =
      ((List.range c.count).filter fun i => opacityKeep o c i && !scaleKeep o c i).length ∧
    (c.clean F o).2.removed_outliers + (c.clean F o).2.final_count =
      (keepAfterScale c o).length := by
  rw [clean_snd_eq]
  have hcount : (c.clean F o).1.count = (keepAfterOutlier F c o).length := rfl
  have hB : (keepAfterOpacity c o).length +
      ((List.range c.count).countP fun i => !opacityKeep o c i) = c.count := by
    rw [keepAfterOpacity]
    have h := length_filter_add_countP_not (opacityKeep o c) (List.range c.count)
    rwa [List.length_range] at h
  have hC : (keepAfterScale c o).length +
      ((keepAfterOpacity c o).countP fun i => !scaleKeep o c i) =
      (keepAfterOpacity c o).length := by
    rw [keepAfterScale]
    exact length_filter_add_countP_not (scaleKeep o c) (keepAfterOpacity c o)
  have hD :
      (match o.outlier_sigma with
        | none => 0
        | some s =>
            if 2 < (keepAfterScale c o).length then
              (keepAfterScale c o).countP fun i => !outlierKeep F c s (keepAfterScale c o) i
            else 0)
        + (keepAfterOutlier F c o).length = (keepAfterScale c o).length := by
    cases hsg : o.outlier_sigma with
    | none => simp [keepAfterOutlier, hsg]
    | some s =>
      simp only [keepAfterOutlier, hsg]
      by_cases hlen : 2 < (keepAfterScale c o).length
      · simp only [if_pos hlen]
        have := length_filter_add_countP_not
          (outlierKeep F c s (keepAfterScale c o)) (keepAfterScale c o)
        omega
      · simp [if_neg hlen]
  have hr2 : ((keepAfterOpacity c o).countP fun i => !scaleKeep o c i) =
      ((List.range c.count).filter fun i => opacityKeep o c i && !scaleKeep o c i).length := by
    rw [keepAfterOpacity, List.countP_filter, ← List.countP_eq_length_filter]
    congr 1
    funext i
    rw [Bool.and_comm]
  refine ⟨?_, hcount.symm, ?_, hr2, hD⟩
  · dsimp only
    omega
  · dsimp only
    rw [List.countP_eq_length_filter]

/-- Witness for C1 at a concrete collection and configuration. -/
theorem clean_stats_partition_witness :
    cloudW.wf ∧
    ((cloudW.clean F0 optsW).2.original_count =
      (cloudW.clean F0 optsW).2.removed_low_opacity +
      (cloudW.clean F0 optsW).2.removed_small_scale +
      (cloudW.clean F0 optsW).2.removed_outliers +
      (cloudW.clean F0 optsW).2.final_count ∧
    (cloudW.clean F0 optsW).2.final_count = (cloudW.clean F0 optsW).1.count ∧
    (cloudW.clean F0 optsW).2.removed_low_opacity =
      ((List.range cloudW.count).filter fun i => !opacityKeep optsW cloudW i).length ∧
    (cloudW.clean F0 optsW).2.removed_small_scale =
      ((List.range cloudW.count).filter fun i =>
        opacityKeep optsW cloudW i && !scaleKeep optsW cloudW i).length ∧
    (cloudW.clean F0 optsW).2.removed_outliers + (cloudW.clean F0 optsW).2.final_count =
      (keepAfterScale cloudW optsW).length) :=
  ⟨by decide, clean_stats_partition F0 cloudW optsW (by decide)⟩

/-- C6: a splat that reaches the scale stage is retained by it iff at least
one of its three scale components is at least `min_scale`, and rejected iff
all three are strictly below `min_scale`. -/
theorem scale_stage_keep_iff (c : GaussianCloud) (o : CleanOptions) (i : ℕ)
    (hreach : i ∈ keepAfterOpacity c o) :
    (i ∈ keepAfterScale c o ↔
      (o.min_scale ≤ (c.scales.getD i Vec3.zero).x ∨
       o.min_scale ≤ (c.scales.getD i Vec3.zero).y ∨
       o.min_scale ≤ (c.scales.getD i Vec3.zero).z)) ∧
    (i ∉ keepAfterScale c o ↔
      ((c.scales.getD i Vec3.zero).x < o.min_scale ∧
       (c.scales.getD i Vec3.zero).y < o.min_scale ∧
       (c.scales.getD i Vec3.zero).z < o.min_scale)) := by
  have hmem : i ∈ keepAfterScale c o ↔
      (o.min_scale ≤ (c.scales.getD i Vec3.zero).x ∨
       o.min_scale ≤ (c.scales.getD i Vec3.zero).y ∨
       o.min_scale ≤ (c.scales.getD i Vec3.zero).z) := by
    rw [keepAfterScale, List.mem_filter]
    simp [hreach, scaleKeep, or_assoc]
  refine ⟨hmem, ?_⟩
  rw [hmem]
  push_neg
  tauto

/-- Witness for C6 at a concrete collection, configuration and index. -/
theorem scale_stage_keep_iff_witness :
    0 ∈ keepAfterOpacity cloudW optsW ∧
    ((0 ∈ keepAfterScale cloudW optsW ↔
      (optsW.min_scale ≤ (cloudW.scales.getD 0 Vec3.zero).x ∨
       optsW.min_scale ≤ (cloudW.scales.getD 0 Vec3.zero).y ∨
       optsW.min_scale ≤ (cloudW.scales.getD 0 Vec3.zero).z)) ∧
    (0 ∉ keepAfterScale cloudW optsW ↔
      ((cloudW.scales.getD 0 Vec3.zero).x < optsW.min_scale ∧
       (cloudW.scales.getD 0 Vec3.zero).y < optsW.min_scale ∧
       (cloudW.scales.getD 0 Vec3.zero).z < optsW.min_scale))) :=
  ⟨by decide, scale_stage_keep_iff cloudW optsW 0 (by decide)⟩

-- Decoder lemmas.

/-- Reading a mapped range at an in-bounds index yields the mapped value. -/
theorem getD_map_range {α : Type} (f : ℕ → α) (n i : ℕ) (hi : i < n) (d : α) :
    ((List.range n).map f).getD i d = f i := by
  rw [List.getD_eq_getElem?_getD, List.getElem?_map, List.getElem?_range hi]
  rfl

/-- A successful `parse_binary` returns exactly the mapped vertex records. -/
theorem parse_binary_ok (F : FloatOps) (data : List ℕ) (count : ℕ) (c : GaussianCloud)
    (h : parse_binary F data count = .ok c) :
    c = cloudOfSplats count ((List.range count).map (binSplat F data)) := by
  simp only [parse_binary] at h
  split at h
  · exact Except.noConfusion h
  · exact (Except.ok.inj h).symm

/-- A successful `asciiLine` returns the record built from the line's values. -/
theorem asciiLine_ok (F : FloatOps) (i : ℕ) (line : String) (s : SplatRec)
    (h : asciiLine F i line = .ok s) : s = asciiSplat F (asciiValues F line) := by
  simp only [asciiLine] at h
  split at h
  · exact Except.noConfusion h
  · exact (Except.ok.inj h).symm

/-- A successful `asciiSplats` run decodes one record per input line, the
record of line `i` being built from that line's parsed values. -/
theorem asciiSplats_spec (F : FloatOps) :
    ∀ (ls : List String) (i0 : ℕ) (recs : List SplatRec),
      asciiSplats F ls i0 = .ok recs →
      recs.length = ls.length ∧
      ∀ i < ls.length, recs[i]? = some (asciiSplat F (asciiValues F (ls.getD i ""))) := by
  intro ls
  induction ls with
  | nil =>
    intro i0 recs h
    simp only [asciiSplats] at h
    have : recs = [] := (Except.ok.inj h).symm
    subst this
    exact ⟨rfl, fun i hi => absurd hi (by simp)⟩
  | cons line rest ih =>
    intro i0 recs h
    simp only [asciiSplats] at h
    cases hline : asciiLine F i0 line with
    | error e => rw [hline] at h; exact Except.noConfusion h
    | ok s =>
      rw [hline] at h
      cases hrest : asciiSplats F rest (i0 + 1) with
      | error e => rw [hrest] at h; exact Except.noConfusion h
      | ok t =>
        rw [hrest] at h
        have hrecs : recs = s :: t := (Except.ok.inj h).symm
        subst hrecs
        obtain ⟨ihlen, ihidx⟩ := ih (i0 + 1) t hrest
        refine ⟨by simp [ihlen], ?_⟩
        intro i hi
        cases i with
        | zero =>
          simp only [List.getElem?_cons_zero, List.getD_cons_zero]
          exact congrArg some (asciiLine_ok F i0 line s hline)
        | succ j =>
          simp only [List.getElem?_cons_succ, List.getD_cons_succ]
          exact ihidx j (by simpa using hi)

/-- C3: for every successfully decoded PLY vertex, on the binary path as on
the ASCII path, the stored entry has opacity `1/(1+exp(-logit))` for the
stored logit, scale the componentwise exponential of the stored log-scale,
and rotation the quaternion read in file order (w,x,y,z), reordered to
(x,y,z,w) and then normalized. -/
theorem parse_transforms (F : FloatOps) (bdata : List ℕ) (bcount : ℕ)
    (content : String) (acount : ℕ) (cb ca : GaussianCloud)
    (hb : parse_binary F bdata bcount = .ok cb)
    (ha : parse_ascii F content acount = .ok ca) :
    (∀ i < cb.count,
      cb.opacities.getD i 0 =
        1 / (1 + F.exp (-(read_f32 F ((bdata.drop (i * BYTES_PER_VERTEX)).take
          BYTES_PER_VERTEX) 216))) ∧
      cb.scales.getD i Vec3.zero =
        ⟨F.exp (read_f32 F ((bdata.drop (i * BYTES_PER_VERTEX)).take BYTES_PER_VERTEX) 220),
         F.exp (read_f32 F ((bdata.drop (i * BYTES_PER_VERTEX)).take BYTES_PER_VERTEX) 224),
         F.exp (read_f32 F ((bdata.drop (i * BYTES_PER_VERTEX)).take BYTES_PER_VERTEX) 228)⟩ ∧
      cb.rotations.getD i Quat.zero =
        quatNormalize F
          ⟨read_f32 F ((bdata.drop (i * BYTES_PER_VERTEX)).take BYTES_PER_VERTEX) 236,
           read_f32 F ((bdata.drop (i * BYTES_PER_VERTEX)).take BYTES_PER_VERTEX) 240,
           read_f32 F ((bdata.drop (i * BYTES_PER_VERTEX)).take BYTES_PER_VERTEX) 244,
           read_f32 F ((bdata.drop (i * BYTES_PER_VERTEX)).take BYTES_PER_VERTEX) 232⟩) ∧
    (∀ i < ca.count,
      ca.opacities.getD i 0 =
        1 / (1 + F.exp (-((asciiValues F (((rustLines content).take acount).getD i "")).getD 54 0))) ∧
      ca.scales.getD i Vec3.zero =
        ⟨F.exp ((asciiValues F (((rustLines content).take acount).getD i "")).getD 55 0),
         F.exp ((asciiValues F (((rustLines content).take acount).getD i "")).getD 56 0),
         F.exp ((asciiValues F (((rustLines content).take acount).getD i "")).getD 57 0)⟩ ∧
      ca.rotations.getD i Quat.zero =
        quatNormalize F
          ⟨(asciiValues F (((rustLines content).take acount).getD i "")).getD 59 0,
           (asciiValues F (((rustLines content).take acount).getD i "")).getD 60 0,
           (asciiValues F (((rustLines content).take acount).getD i "")).getD 61 0,
           (asciiValues F (((rustLines content).take acount).getD i "")).getD 58 0⟩) := by
  constructor
  · intro i hi
    have hc := parse_binary_ok F bdata bcount cb hb
    subst hc
    have hi2 : i < bcount := hi
    refine ⟨?_, ?_, ?_⟩
    · show (((List.range bcount).map (binSplat F bdata)).map SplatRec.opacity).getD i 0 = _
      rw [List.map_map, getD_map_range _ bcount i hi2]
      rfl
    · show (((List.range bcount).map (binSplat F bdata)).map SplatRec.scale).getD i Vec3.zero = _
      rw [List.map_map, getD_map_range _ bcount i hi2]
      rfl
    · show (((List.range bcount).map (binSplat F bdata)).map SplatRec.rot).getD i Quat.zero = _
      rw [List.map_map, getD_map_range _ bcount i hi2]
      rfl
  · intro i hi
    have hm : ∃ recs, asciiSplats F ((rustLines content).take acount) 0 = .ok recs ∧
        ca = cloudOfSplats recs.length recs := by
      simp only [parse_ascii] at ha
      cases hr : asciiSplats F ((rustLines content).take acount) 0 with
      | error e => rw [hr] at ha; exact Except.noConfusion ha
      | ok recs => rw [hr] at ha; exact ⟨recs, rfl, (Except.ok.inj ha).symm⟩
    obtain ⟨recs, hr, hc⟩ := hm
    subst hc
    obtain ⟨hlen, hidx⟩ := asciiSplats_spec F ((rustLines content).take acount) 0 recs hr
    have hi2 : i < recs.length := hi
    have hideq := hidx i (by omega)
    refine ⟨?_, ?_, ?_⟩
    · show ((recs.map SplatRec.opacity).getD i 0) = _
      rw [List.getD_eq_getElem?_getD, List.getElem?_map, hideq]
      rfl
    · show ((recs.map SplatRec.scale).getD i Vec3.zero) = _
      rw [List.getD_eq_getElem?_getD, List.getElem?_map, hideq]
      rfl
    · show ((recs.map SplatRec.rot).getD i Quat.zero) = _
      rw [List.getD_eq_getElem?_getD, List.getElem?_map, hideq]
      rfl

/-- Witness for C3 at a concrete one-record binary body and ASCII body. -/
theorem parse_transforms_witness :
    parse_binary F0 bdataW 1 = .ok cbW ∧
    parse_ascii F0 "" 0 = .ok caW ∧
    ((∀ i < cbW.count,
      cbW.opacities.getD i 0 =
        1 / (1 + F0.exp (-(read_f32 F0 ((bdataW.drop (i * BYTES_PER_VERTEX)).take
          BYTES_PER_VERTEX) 216))) ∧
      cbW.scales.getD i Vec3.zero =
        ⟨F0.exp (read_f32 F0 ((bdataW.drop (i * BYTES_PER_VERTEX)).take BYTES_PER_VERTEX) 220),
         F0.exp (read_f32 F0 ((bdataW.drop (i * BYTES_PER_VERTEX)).take BYTES_PER_VERTEX) 224),
         F0.exp (read_f32 F0 ((bdataW.drop (i * BYTES_PER_VERTEX)).take BYTES_PER_VERTEX) 228)⟩ ∧
      cbW.rotations.getD i Quat.zero =
        quatNormalize F0
          ⟨read_f32 F0 ((bdataW.drop (i * BYTES_PER_VERTEX)).take BYTES_PER_VERTEX) 236,
           read_f32 F0 ((bdataW.drop (i * BYTES_PER_VERTEX)).take BYTES_PER_VERTEX) 240,
           read_f32 F0 ((bdataW.drop (i * BYTES_PER_VERTEX)).take BYTES_PER_VERTEX) 244,
           read_f32 F0 ((bdataW.drop (i * BYTES_PER_VERTEX)).take BYTES_PER_VERTEX) 232⟩) ∧
    (∀ i < caW.count,
      caW.opacities.getD i 0 =
        1 / (1 + F0.exp (-((asciiValues F0 (((rustLines "").take 0).getD i "")).getD 54 0))) ∧
      caW.scales.getD i Vec3.zero =
        ⟨F0.exp ((asciiValues F0 (((rustLines "").take 0).getD i "")).getD 55 0),
         F0.exp ((asciiValues F0 (((rustLines "").take 0).getD i "")).getD 56 0),
         F0.exp ((asciiValues F0 (((rustLines "").take 0).getD i "")).getD 57 0)⟩ ∧
      caW.rotations.getD i Quat.zero =
        quatNormalize F0
          ⟨(asciiValues F0 (((rustLines "").take 0).getD i "")).getD 59 0,
           (asciiValues F0 (((rustLines "").take 0).getD i "")).getD 60 0,
           (asciiValues F0 (((rustLines "").take 0).getD i "")).getD 61 0,
           (asciiValues F0 (((rustLines "").take 0).getD i "")).getD 58 0⟩)) := by
  have hb : parse_binary F0 bdataW 1 = .ok cbW := by
    simp only [parse_binary, BYTES_PER_VERTEX, bdataW, List.length_replicate]
    rw [if_neg (by norm_num)]
    rfl
  have ha : parse_ascii F0 "" 0 = .ok caW := rfl
  exact ⟨hb, ha, parse_transforms F0 bdataW 1 "" 0 cbW caW hb ha⟩

/-- When every taken line has at least 62 parseable values, the ASCII loop
succeeds and decodes exactly one record per line. -/
theorem asciiSplats_total (F : FloatOps) :
    ∀ (ls : List String) (i0 : ℕ),
      (∀ line ∈ ls, 62 ≤ (asciiValues F line).length) →
      ∃ recs, asciiSplats F ls i0 = .ok recs ∧ recs.length = ls.length := by
  intro ls
  induction ls with
  | nil => exact fun i0 _ => ⟨[], rfl, rfl⟩
  | cons line rest ih =>
    intro i0 h
    have hline : ¬((asciiValues F line).length < 62) := by
      have := h line (by simp)
      omega
    obtain ⟨t, ht, hlen⟩ := ih (i0 + 1) fun l hl => h l (by simp [hl])
    have hl2 : asciiLine F i0 line = .ok (asciiSplat F (asciiValues F line)) := by
      simp only [asciiLine]
      rw [if_neg hline]
    refine ⟨asciiSplat F (asciiValues F line) :: t, ?_, by simp [hlen]⟩
    simp only [asciiSplats, hl2, ht]

/-- C8: an ASCII body whose taken lines all carry at least 62 parseable
values decodes without error even when there are fewer lines than the
declared vertex count: at most `count` lines are parsed and the returned
collection's count is the number of lines actually decoded, which is the
minimum of the declared count and the number of available lines. -/
theorem parse_ascii_shortfall (F : FloatOps) (content : String) (count : ℕ)
    (h : ∀ line ∈ (rustLines content).take count, 62 ≤ (asciiValues F line).length) :
    ∃ c, parse_ascii F content count = .ok c ∧
      c.count = ((rustLines content).take count).length ∧
      c.count = min count (rustLines content).length := by
  obtain ⟨recs, hr, hlen⟩ := asciiSplats_total F ((rustLines content).take count) 0 h
  refine ⟨cloudOfSplats recs.length recs, ?_, ?_, ?_⟩
  · simp only [parse_ascii, hr]
  · exact hlen
  · rw [show (cloudOfSplats recs.length recs).count = recs.length from rfl, hlen]
    exact List.length_take count (rustLines content)

/-- Witness for C8: a one-line body declared with vertex count 2 decodes
successfully with final count 1. -/
theorem parse_ascii_shortfall_witness :
    (∀ line ∈ (rustLines lineW).take 2, 62 ≤ (asciiValues F0 line).length) ∧
    (∃ c, parse_ascii F0 lineW 2 = .ok c ∧
      c.count = ((rustLines lineW).take 2).length ∧
      c.count = min 2 (rustLines lineW).length) :=
  ⟨by decide, parse_ascii_shortfall F0 lineW 2 (by decide)⟩

/-- Reading a prefix at an index inside the taken range agrees with the
original list. -/
theorem getD_take_eq {α : Type} (vs : List α) (n k : ℕ) (hk : k < n) (d : α) :
    (vs.take n).getD k d = vs.getD k d := by
  rw [List.getD_eq_getElem?_getD, List.getD_eq_getElem?_getD, List.getElem?_take]
  simp [hk]

/-- The record built from a value list only depends on the first 62 values. -/
theorem asciiSplat_take62 (F : FloatOps) (vs : List ℚ) :
    asciiSplat F (vs.take 62) = asciiSplat F vs := by
  have hg : ∀ k, k < 62 → (vs.take 62).getD k 0 = vs.getD k 0 :=
    fun k hk => getD_take_eq vs 62 k hk 0
  simp only [asciiSplat, SplatRec.mk.injEq, Vec3.mk.injEq, Quat.mk.injEq, quatNormalize]
  refine ⟨⟨?_, ?_, ?_⟩, ?_, ⟨?_, ?_, ?_⟩, ?_, ?_⟩
  · exact hg 0 (by omega)
  · exact hg 1 (by omega)
  · exact hg 2 (by omega)
  · rw [hg 54 (by omega)]
  · rw [hg 55 (by omega)]
  · rw [hg 56 (by omega)]
  · rw [hg 57 (by omega)]
  · rw [hg 58 (by omega), hg 59 (by omega), hg 60 (by omega), hg 61 (by omega)]
    exact ⟨rfl, rfl, rfl, rfl⟩
  · rw [hg 6 (by omega), hg 7 (by omega), hg 8 (by omega)]
    refine congrArg _ (List.map_congr_left fun j hj => ?_)
    have : j < 45 := List.mem_range.mp hj
    rw [hg (9 + j) (by omega)]

/-- C10: in the ASCII decode path, tokens of a vertex line that do not parse
as floating point are silently discarded (the value list is the
whitespace-split tokens filtered through the float parser), a line decodes
successfully iff it yields at least 62 parseable values, and a successful
decode uses exactly the first 62 values in line order. -/
theorem ascii_line_tokens (F : FloatOps) (i : ℕ) (line : String) :
    asciiValues F line = (splitWhitespace line).filterMap F.parseF32 ∧
    ((∃ r, asciiLine F i line = .ok r) ↔ 62 ≤ (asciiValues F line).length) ∧
    (∀ r, asciiLine F i line = .ok r →
      r = asciiSplat F ((asciiValues F line).take 62)) := by
  refine ⟨rfl, ?_, ?_⟩
  · simp only [asciiLine]
    split
    · rename_i hlt
      constructor
      · rintro ⟨r, hr⟩
        exact Except.noConfusion hr
      · intro h62
        omega
    · rename_i hge
      exact ⟨fun _ => by omega, fun _ => ⟨_, rfl⟩⟩
  · intro r hr
    rw [asciiLine_ok F i line r hr, asciiSplat_take62]

/-- Witness for C10: the 62-token line decodes successfully, consistent with
its number of parseable values. -/
theorem ascii_line_tokens_witness :
    (∃ r, asciiLine F0 0 lineW = .ok r) ∧ 62 ≤ (asciiValues F0 lineW).length :=
  ⟨(ascii_line_tokens F0 0 lineW).2.1.mpr (by decide), by decide⟩

-- GLB framing lemmas.

/-- A `u32le` encoding is four bytes. -/
theorem u32le_length (n : ℕ) : (u32le n).length = 4 := rfl

/-- Decoding a little-endian `u32` recovers the value modulo `2^32`. -/
theorem leNat_u32le (n : ℕ) : leNat (u32le n) = n % 4294967296 := by
  simp only [leNat, u32le, List.foldr]
  omega

/-- Bytes 8..12 of the GLB output are the encoded total length. -/
theorem glbBytes_field8 (ser : GltfRoot → List ℕ) (F : FloatOps) (c : GaussianCloud)
    (cfg : ExportConfig) :
    ((glbBytes ser F c cfg).drop 8).take 4 =
      u32le (12 + 8 +
        ((ser (build_gltf F c cfg).1).length + pad4 (ser (build_gltf F c cfg).1).length) +
        8 +
        ((build_gltf F c cfg).2.1.length + pad4 (build_gltf F c cfg).2.1.length)) := rfl

/-- The length of the GLB output: 28 framing bytes plus padded JSON chunk
plus padded binary chunk. -/
theorem glbBytes_length (ser : GltfRoot → List ℕ) (F : FloatOps) (c : GaussianCloud)
    (cfg : ExportConfig) :
    (glbBytes ser F c cfg).length =
      28 + ((ser (build_gltf F c cfg).1).length + pad4 (ser (build_gltf F c cfg).1).length) +
      ((build_gltf F c cfg).2.1.length + pad4 (build_gltf F c cfg).2.1.length) := by
  simp only [glbBytes, List.length_append, u32le, List.length_cons, List.length_nil,
    List.length_replicate]
  omega

/-- C4 (amended): for every collection and export configuration the GLB
output of `export_glb_with_stats` begins with the magic bytes g,l,T,F,
carries version 2 as a little-endian u32 at bytes 4..8, and its total-length
field at bytes 8..12 equals the actual output length reduced modulo `2^32`
(the field is written through a wrapping `as u32` cast, so the two coincide
exactly whenever the output is shorter than 4 GiB). -/
theorem glb_framing (ser : GltfRoot → List ℕ) (F : FloatOps) (c : GaussianCloud)
    (cfg : ExportConfig) (r : ExportResult)
    (h : export_glb_with_stats ser F c cfg = .ok r) :
    r.data.take 4 = [103, 108, 84, 70] ∧
    leNat ((r.data.drop 4).take 4) = 2 ∧
    leNat ((r.data.drop 8).take 4) = r.data.length % 4294967296 := by
  have hr : r = { data := glbBytes ser F c cfg
                  compression_stats := (build_gltf F c cfg).2.2 } :=
    (Except.ok.inj h).symm
  subst hr
  refine ⟨rfl, rfl, ?_⟩
  show leNat (((glbBytes ser F c cfg).drop 8).take 4) = (glbBytes ser F c cfg).length % 4294967296
  rw [glbBytes_field8, leNat_u32le, glbBytes_length]
  omega

/-- Witness for the amended C4 at a concrete collection and configuration. -/
theorem glb_framing_witness :
    export_glb_with_stats ser0 F0 cloudW cfgCex =
      .ok { data := glbBytes ser0 F0 cloudW cfgCex
            compression_stats := (build_gltf F0 cloudW cfgCex).2.2 } ∧
    ((glbBytes ser0 F0 cloudW cfgCex).take 4 = [103, 108, 84, 70] ∧
     leNat (((glbBytes ser0 F0 cloudW cfgCex).drop 4).take 4) = 2 ∧
     leNat (((glbBytes ser0 F0 cloudW cfgCex).drop 8).take 4) =
       (glbBytes ser0 F0 cloudW cfgCex).length % 4294967296) :=
  ⟨rfl, glb_framing ser0 F0 cloudW cfgCex _ rfl⟩

-- C4 counterexample: a collection large enough that the total length wraps.

/-- The length of a flat-mapped replicated list. -/
theorem length_flatMap_replicate {α β : Type} (n : ℕ) (v : α) (f : α → List β) :
    ((List.replicate n v).flatMap f).length = n * (f v).length := by
  induction n with
  | zero => simp
  | succ k ih =>
    simp only [List.replicate_succ, List.flatMap_cons, List.length_append, ih]
    ring

/-- Zipping two equally replicated lists replicates the pair. -/
theorem zip_replicate_same {α β : Type} (n : ℕ) (a : α) (b : β) :
    (List.replicate n a).zip (List.replicate n b) = List.replicate n (a, b) := by
  induction n with
  | zero => rfl
  | succ k ih => simp [List.replicate_succ, ih]

/-- An `f32le` encoding is four bytes. -/
theorem f32le_length (F : FloatOps) (q : ℚ) : (f32le F q).length = 4 := by
  simp [f32le]

/-- The buffer contribution of one `add_accessor` call. -/
theorem addAccessor_buffer (um : Bool) (st : BuildState) (data : List ℕ)
    (ct : ℕ) (ty : String) (mn mx : Option (List ℚ)) (nz : Bool) (vs : ℕ)
    (nm : String) (cnt : ℕ) :
    (addAccessor um st data ct ty mn mx nz vs nm cnt).buffer_data =
      st.buffer_data ++ List.replicate (pad4 st.buffer_data.length) 0 ++ data := rfl

/-- The packed buffer of the counterexample collection is 4.4 GB. -/
theorem bigCloud_buffer_length :
    (build_gltf F0 bigCloud cfgCex).2.1.length = 4400000000 := by
  have hpos : (positionBytesF32 F0 bigCloud).length = 1200000000 := by
    show ((List.replicate 100000000 Vec3.zero).flatMap _).length = 1200000000
    rw [length_flatMap_replicate]
    simp [f32le_length]
  have hcolors : gltfColors bigCloud =
      List.replicate 100000000 (sh_to_rgba (List.replicate 48 0) 1) := by
    show ((List.replicate 100000000 (List.replicate 48 (0 : ℚ))).zip
      (List.replicate 100000000 (1 : ℚ))).map _ = _
    rw [zip_replicate_same, List.map_replicate]
  have hcol : (colorBytesU8 bigCloud).length = 400000000 := by
    rw [colorBytesU8, hcolors, length_flatMap_replicate]
    rfl
  have hrot : (rotationBytes F0 bigCloud).length = 1600000000 := by
    show ((List.replicate 100000000 (Quat.mk 0 0 0 1)).flatMap _).length = 1600000000
    rw [length_flatMap_replicate]
    simp [f32le_length]
  have hscale : (scaleBytes F0 bigCloud).length = 1200000000 := by
    show ((List.replicate 100000000 (Vec3.mk 1 1 1)).flatMap _).length = 1200000000
    rw [length_flatMap_replicate]
    simp [f32le_length]
  show (buildCommon F0 bigCloud false true false).buffer_data.length = 4400000000
  rw [buildCommon]
  simp only [Bool.false_eq_true, if_false, if_true, addAccessor_buffer,
    List.length_append, List.length_replicate]
  rw [hpos, hcol, hrot, hscale]
  simp only [pad4, List.length_nil]

/-- C4 counterexample: on a 100-million-splat collection the GLB output is
4 400 000 028 bytes long, but the 32-bit total-length field wraps and holds
105 032 732, so the declared total length differs from the actual output
length. -/
theorem glb_total_length_wraps :
    export_glb_with_stats ser0 F0 bigCloud cfgCex =
      .ok { data := glbBytes ser0 F0 bigCloud cfgCex
            compression_stats := (build_gltf F0 bigCloud cfgCex).2.2 } ∧
    (glbBytes ser0 F0 bigCloud cfgCex).length = 4400000028 ∧
    leNat (((glbBytes ser0 F0 bigCloud cfgCex).drop 8).take 4) = 105032732 ∧
    leNat (((glbBytes ser0 F0 bigCloud cfgCex).drop 8).take 4) ≠
      (glbBytes ser0 F0 bigCloud cfgCex).length := by
  have hser : (ser0 (build_gltf F0 bigCloud cfgCex).1).length = 0 := rfl
  have hlen : (glbBytes ser0 F0 bigCloud cfgCex).length = 4400000028 := by
    rw [glbBytes_length, hser, bigCloud_buffer_length]
    simp only [pad4]
  have hfield : leNat (((glbBytes ser0 F0 bigCloud cfgCex).drop 8).take 4) = 105032732 := by
    rw [glbBytes_field8, leNat_u32le, hser, bigCloud_buffer_length]
    simp only [pad4]
  refine ⟨rfl, hlen, hfield, ?_⟩
  rw [hfield, hlen]
  norm_num

/-- The packed buffer of the empty collection is empty for every
configuration. -/
theorem build_gltf_empty_buffer (F : FloatOps) (cfg : ExportConfig) :
    (build_gltf F emptyCloud cfg).2.1 = [] := by
  rcases cfg with ⟨fmt, qc, fsh, qp, mo⟩
  cases qp <;> cases qc <;> cases fsh <;>
    simp [build_gltf, buildCommon, shExtend, addAccessor, positionBytesF32, positionBytesI16,
      colorBytesF32, colorBytesU8, gltfColors, rotationBytes, scaleBytes, shFlatBytes,
      emptyCloud, pad4]

/-- The POSITION accessor of the empty collection reports the zero bounds. -/
theorem build_gltf_empty_accessor0 (F : FloatOps) (cfg : ExportConfig) :
    ((build_gltf F emptyCloud cfg).1.accessors.getD 0 accD).min = some [0, 0, 0] ∧
    ((build_gltf F emptyCloud cfg).1.accessors.getD 0 accD).max = some [0, 0, 0] := by
  rcases cfg with ⟨fmt, qc, fsh, qp, mo⟩
  refine ⟨?_, ?_⟩ <;>
  · cases qp <;> cases qc <;> cases fsh <;>
      simp [build_gltf, buildCommon, shExtend, addAccessor, compute_bounds, Vec3.zero,
        emptyCloud, accD]

/-- C9: for the empty collection and every export configuration (and every
serializer output shorter than 4 GiB), `export_glb_with_stats` succeeds and
its output carries the full GLB framing — magic bytes, version 2, and a
total-length field that equals the actual output length exactly — while the
POSITION accessor reports bounds (0,0,0)-(0,0,0) from `compute_bounds`. -/
theorem export_empty_cloud (ser : GltfRoot → List ℕ) (F : FloatOps) (cfg : ExportConfig)
    (hser : (ser (build_gltf F emptyCloud cfg).1).length ≤ 4294967260) :
    ∃ r, export_glb_with_stats ser F emptyCloud cfg = .ok r ∧
      r.data.take 4 = [103, 108, 84, 70] ∧
      leNat ((r.data.drop 4).take 4) = 2 ∧
      leNat ((r.data.drop 8).take 4) = r.data.length ∧
      compute_bounds emptyCloud.positions = (Vec3.zero, Vec3.zero) ∧
      ((build_gltf F emptyCloud cfg).1.accessors.getD 0 accD).min = some [0, 0, 0] ∧
      ((build_gltf F emptyCloud cfg).1.accessors.getD 0 accD).max = some [0, 0, 0] := by
  obtain ⟨hmin, hmax⟩ := build_gltf_empty_accessor0 F cfg
  refine ⟨_, rfl, rfl, rfl, ?_, rfl, hmin, hmax⟩
  show leNat (((glbBytes ser F emptyCloud cfg).drop 8).take 4) =
    (glbBytes ser F emptyCloud cfg).length
  rw [glbBytes_field8, leNat_u32le, glbBytes_length, build_gltf_empty_buffer]
  simp only [List.length_nil, pad4] at hser ⊢
  omega

/-- Witness for C9 at a concrete serializer and configuration. -/
theorem export_empty_cloud_witness :
    (ser0 (build_gltf F0 emptyCloud cfgCex).1).length ≤ 4294967260 ∧
    (∃ r, export_glb_with_stats ser0 F0 emptyCloud cfgCex = .ok r ∧
      r.data.take 4 = [103, 108, 84, 70] ∧
      leNat ((r.data.drop 4).take 4) = 2 ∧
      leNat ((r.data.drop 8).take 4) = r.data.length ∧
      compute_bounds emptyCloud.positions = (Vec3.zero, Vec3.zero) ∧
      ((build_gltf F0 emptyCloud cfgCex).1.accessors.getD 0 accD).min = some [0, 0, 0] ∧
      ((build_gltf F0 emptyCloud cfgCex).1.accessors.getD 0 accD).max = some [0, 0, 0]) :=
  ⟨by decide, export_empty_cloud ser0 F0 cfgCex (by decide)⟩

-- C5: the COLOR_0 derivation.

/-- C5: the per-splat RGBA used for COLOR_0 (before any quantization) is
`clamp(dc * C0 + 0.5, 0, 1)` on each DC spherical-harmonic channel with
`C0 = 0.28209479`, and the alpha channel is the splat's opacity unmodified;
in particular DC terms (0,0,0) with opacity 1 give RGBA (1/2, 1/2, 1/2, 1). -/
theorem color0_formula (c : GaussianCloud) :
    gltfColors c = (c.sh_coeffs.zip c.opacities).map (fun sc => sh_to_rgba sc.1 sc.2) ∧
    (∀ sh opacity, sh_to_rgba sh opacity =
      [min 1 (max 0 (sh.getD 0 0 * (0.28209479 : ℚ) + 1 / 2)),
       min 1 (max 0 (sh.getD 1 0 * (0.28209479 : ℚ) + 1 / 2)),
       min 1 (max 0 (sh.getD 2 0 * (0.28209479 : ℚ) + 1 / 2)),
       opacity]) ∧
    sh_to_rgba (List.replicate 48 0) 1 = [1 / 2, 1 / 2, 1 / 2, 1] := by
  have hclamp : ∀ x : ℚ, rclamp x 0 1 = min 1 (max 0 x) := by
    intro x
    rw [rclamp]
    split_ifs with h1 h2
    · rw [max_eq_left h1.le, min_eq_right (by norm_num)]
    · rw [max_eq_right (le_trans zero_le_one h2.le), min_eq_left h2.le]
    · rw [max_eq_right (not_lt.mp h1), min_eq_right (not_lt.mp h2)]
  have hform : ∀ (sh : List ℚ) (opacity : ℚ), sh_to_rgba sh opacity =
      [min 1 (max 0 (sh.getD 0 0 * (0.28209479 : ℚ) + 1 / 2)),
       min 1 (max 0 (sh.getD 1 0 * (0.28209479 : ℚ) + 1 / 2)),
       min 1 (max 0 (sh.getD 2 0 * (0.28209479 : ℚ) + 1 / 2)),
       opacity] := by
    intro sh opacity
    simp only [sh_to_rgba, SH_C0, hclamp]
    norm_num
  refine ⟨rfl, hform, ?_⟩
  rw [hform]
  have hz : ∀ k : ℕ, (List.replicate 48 (0 : ℚ)).getD k 0 = 0 := by
    intro k
    rw [List.getD_eq_getElem?_getD, List.getElem?_replicate]
    split_ifs <;> rfl
  rw [hz 0, hz 1, hz 2]
  norm_num

-- C7: full spherical harmonics strictly increase the output size.

/-- Flat-mapping the 4-byte float encoder multiplies lengths by four. -/
theorem length_flatMap_f32le (F : FloatOps) (l : List ℚ) :
    (l.flatMap (f32le F)).length = 4 * l.length := by
  induction l with
  | nil => rfl
  | cons a t ih =>
    simp only [List.flatMap_cons, List.length_append, ih, f32le_length, List.length_cons]
    ring

/-- The flattened spherical-harmonics buffer of a well-formed collection is
192 bytes per splat. -/
theorem shFlatBytes_length (F : FloatOps) (c : GaussianCloud) (hwf : c.wf) :
    (shFlatBytes F c).length = 192 * c.count := by
  obtain ⟨-, -, -, -, h5, h48⟩ := hwf
  rw [shFlatBytes, length_flatMap_f32le]
  have hflat : ∀ ls : List (List ℚ), (∀ sh ∈ ls, sh.length = 48) →
      (ls.flatMap id).length = 48 * ls.length := by
    intro ls
    induction ls with
    | nil => intro _; rfl
    | cons a t ih =>
      intro h
      simp only [List.flatMap_cons, List.length_append, id, h a (by simp),
        ih fun x hx => h x (by simp [hx]), List.length_cons]
      ring
  rw [hflat c.sh_coeffs h48, h5]
  ring

/-- Enabling full spherical harmonics extends the packed buffer of the
otherwise identical configuration by the aligned flattened SH bytes. -/
theorem build_gltf_full_buffer (F : FloatOps) (c : GaussianCloud) (cfg : ExportConfig) :
    (build_gltf F c { cfg with export_full_sh := true }).2.1 =
      ((build_gltf F c { cfg with export_full_sh := false }).2.1 ++
        List.replicate
          (pad4 (build_gltf F c { cfg with export_full_sh := false }).2.1.length) 0) ++
      shFlatBytes F c := rfl

/-- C7: for every non-empty well-formed collection, every serializer that
does not shrink on the extended document, and any fixed settings of the
other toggles, the GLB output with full spherical-harmonics export enabled
is strictly longer than with it disabled. -/
theorem full_sh_increases_size (ser : GltfRoot → List ℕ) (F : FloatOps)
    (c : GaussianCloud) (cfg : ExportConfig) (hwf : c.wf) (hne : 1 ≤ c.count)
    (hser : (ser (build_gltf F c { cfg with export_full_sh := false }).1).length ≤
            (ser (build_gltf F c { cfg with export_full_sh := true }).1).length)
    (r₁ r₂ : ExportResult)
    (h₁ : export_glb_with_stats ser F c { cfg with export_full_sh := false } = .ok r₁)
    (h₂ : export_glb_with_stats ser F c { cfg with export_full_sh := true } = .ok r₂) :
    r₁.data.length < r₂.data.length := by
  have e₁ : r₁ = { data := glbBytes ser F c { cfg with export_full_sh := false }
                   compression_stats :=
                     (build_gltf F c { cfg with export_full_sh := false }).2.2 } :=
    (Except.ok.inj h₁).symm
  have e₂ : r₂ = { data := glbBytes ser F c { cfg with export_full_sh := true }
                   compression_stats :=
                     (build_gltf F c { cfg with export_full_sh := true }).2.2 } :=
    (Except.ok.inj h₂).symm
  subst e₁
  subst e₂
  show (glbBytes ser F c { cfg with export_full_sh := false }).length <
    (glbBytes ser F c { cfg with export_full_sh := true }).length
  rw [glbBytes_length, glbBytes_length]
  have hbuf : (build_gltf F c { cfg with export_full_sh := true }).2.1.length =
      (build_gltf F c { cfg with export_full_sh := false }).2.1.length +
      pad4 (build_gltf F c { cfg with export_full_sh := false }).2.1.length +
      192 * c.count := by
    rw [build_gltf_full_buffer]
    simp only [List.length_append, List.length_replicate, shFlatBytes_length F c hwf]
  rw [hbuf]
  have hcount : 192 ≤ 192 * c.count := by
    calc 192 = 192 * 1 := by norm_num
    _ ≤ 192 * c.count := Nat.mul_le_mul_left 192 hne
  simp only [pad4] at *
  omega

set_option maxRecDepth 8000 in
/-- Witness for C7: one concrete splat, serializer, and configuration. -/
theorem full_sh_increases_size_witness :
    cloudW.wf ∧ 1 ≤ cloudW.count ∧
    (ser0 (build_gltf F0 cloudW { cfgCex with export_full_sh := false }).1).length ≤
      (ser0 (build_gltf F0 cloudW { cfgCex with export_full_sh := true }).1).length ∧
    (glbBytes ser0 F0 cloudW { cfgCex with export_full_sh := false }).length <
      (glbBytes ser0 F0 cloudW { cfgCex with export_full_sh := true }).length :=
  ⟨by decide, by decide, by decide,
    full_sh_increases_size ser0 F0 cloudW cfgCex (by decide) (by decide) (by decide)
      _ _ rfl rfl⟩

/-- C2: with validated claims, `convert`/`convert_with_clean` performs the
authorization checks before any parsing: zero remaining conversions yields
the quota-exceeded error, and (otherwise) an input longer than the permitted
maximum yields the file-too-large error carrying the actual size and the
limit — in each case for every PLY decoder `parseFn`, i.e. without the
decoder ever influencing the outcome. -/
theorem convert_auth_checks (claims : TokenClaims)
    (parseFn : List ℕ → Except SplatsError GaussianCloud)
    (ser serPretty : GltfRoot → List ℕ) (b64 : List ℕ → String) (F : FloatOps)
    (ply_data : List ℕ) (config : ExportConfig) (clean_options : Option CleanOptions) :
    (claims.conversions_remaining = 0 →
      convert_with_clean (.ok claims) parseFn ser serPretty b64 F ply_data config
        clean_options = .error .quotaExceeded) ∧
    (claims.conversions_remaining ≠ 0 → claims.max_file_size < ply_data.length →
      convert_with_clean (.ok claims) parseFn ser serPretty b64 F ply_data config
        clean_options = .error (.fileTooLarge ply_data.length claims.max_file_size)) ∧
    (claims.conversions_remaining = 0 →
      convert (.ok claims) parseFn ser serPretty b64 F ply_data config =
        .error .quotaExceeded) ∧
    (claims.conversions_remaining ≠ 0 → claims.max_file_size < ply_data.length →
      convert (.ok claims) parseFn ser serPretty b64 F ply_data config =
        .error (.fileTooLarge ply_data.length claims.max_file_size)) := by
  have h1 : claims.conversions_remaining = 0 →
      convert_with_clean (.ok claims) parseFn ser serPretty b64 F ply_data config
        clean_options = .error .quotaExceeded := by
    intro hz
    simp only [convert_with_clean, if_pos hz]
  have h2 : claims.conversions_remaining ≠ 0 → claims.max_file_size < ply_data.length →
      convert_with_clean (.ok claims) parseFn ser serPretty b64 F ply_data config
        clean_options = .error (.fileTooLarge ply_data.length claims.max_file_size) := by
    intro hnz hbig
    simp only [convert_with_clean, if_neg hnz, if_pos hbig]
  have h1n : claims.conversions_remaining = 0 →
      convert_with_clean (.ok claims) parseFn ser serPretty b64 F ply_data config none =
        .error .quotaExceeded := by
    intro hz
    simp only [convert_with_clean, if_pos hz]
  have h2n : claims.conversions_remaining ≠ 0 → claims.max_file_size < ply_data.length →
      convert_with_clean (.ok claims) parseFn ser serPretty b64 F ply_data config none =
        .error (.fileTooLarge ply_data.length claims.max_file_size) := by
    intro hnz hbig
    simp only [convert_with_clean, if_neg hnz, if_pos hbig]
  refine ⟨h1, h2, ?_, ?_⟩
  · intro hz
    rw [convert, h1n hz]
    rfl
  · intro hnz hbig
    rw [convert, h2n hnz hbig]
    rfl

/-- Witness for C2: an exhausted quota is rejected with the quota error, and
an 11-byte input against a 10-byte limit is rejected with the size error. -/
theorem convert_auth_checks_witness :
    convert_with_clean (.ok claimsQ) parse0 ser0 ser0 b640 F0 [0] cfgCex none =
      .error .quotaExceeded ∧
    convert_with_clean (.ok claimsS) parse0 ser0 ser0 b640 F0
      [0, 0, 0, 0, 0, 0, 0, 0, 0, 0, 0] cfgCex none =
      .error (.fileTooLarge 11 10) :=
  ⟨(convert_auth_checks claimsQ parse0 ser0 ser0 b640 F0 [0] cfgCex none).1 rfl,
   (convert_auth_checks claimsS parse0 ser0 ser0 b640 F0
      [0, 0, 0, 0, 0, 0, 0, 0, 0, 0, 0] cfgCex none).2.1 (by decide) (by decide)⟩
